import Mathlib

/-!
Shallow embedding of the microservices-communication-benchmark repository
(Order / Payment / Notification services, each bound to REST, JSON-RPC and
gRPC transports) together with proofs about the claims of its specification.

Conventions of the embedding:
* Python numbers (int, float) are modelled as `Int` / `ℚ`; the code applies
  no explicit rounding anywhere, so exact rational arithmetic mirrors the
  single numeric rule used by every binding.
* Generated identifiers (uuid4) and wall-clock timestamps are supplied by an
  explicit environment record instead of being effectful.
* Each HTTP/RPC handler is embedded as a pure function of its request, the
  result of its downstream call (supplied as a parameter, since the callee
  lives in another process), and an optional injected internal fault carrying
  the text of the raised exception.  The function returns the protocol-level
  outcome together with the list of metric events recorded and the list of
  downstream calls attempted.
-/

/-- Enum `OrderStatus` of src/common/models.py. -/
inductive OrderStatus where
  | pending
  | processing
  | paid
  | completed
  | failed
deriving DecidableEq, Repr

/-- Enum `PaymentStatus` of src/common/models.py. -/
inductive PaymentStatus where
  | pending
  | processing
  | completed
  | failed
  | refunded
deriving DecidableEq, Repr

/-- Enum `PaymentMethod` of src/common/models.py. -/
inductive PaymentMethod where
  | credit_card
  | debit_card
  | bank_transfer
  | paypal
deriving DecidableEq, Repr

/-- Enum `NotificationType` of src/common/models.py. -/
inductive NotificationType where
  | email
  | sms
  | push
deriving DecidableEq, Repr

/-- Enum `NotificationStatus` of src/common/models.py. -/
inductive NotificationStatus where
  | pending
  | sent
  | delivered
  | failed
deriving DecidableEq, Repr

/-- The `.value` string of a `PaymentMethod` member (str-valued enum). -/
def PaymentMethod.value : PaymentMethod → String
  | .credit_card => "credit_card"
  | .debit_card => "debit_card"
  | .bank_transfer => "bank_transfer"
  | .paypal => "paypal"

/-- Python `PaymentMethod(s)` enum lookup: `some m` when `s` is the value of a
member, `none` when the constructor raises `ValueError`. -/
def PaymentMethod.ofString (s : String) : Option PaymentMethod :=
  if s = "credit_card" then some .credit_card
  else if s = "debit_card" then some .debit_card
  else if s = "bank_transfer" then some .bank_transfer
  else if s = "paypal" then some .paypal
  else none

/-- The `.value` string of a `NotificationType` member. -/
def NotificationType.value : NotificationType → String
  | .email => "email"
  | .sms => "sms"
  | .push => "push"

/-- Python `NotificationType(s)` enum lookup. -/
def NotificationType.ofString (s : String) : Option NotificationType :=
  if s = "email" then some .email
  else if s = "sms" then some .sms
  else if s = "push" then some .push
  else none

/-- Pydantic model `OrderItem` of src/common/models.py: the raw field values.
The pydantic constraints (`quantity ≥ 1`, `unit_price ≥ 0`) are the separate
predicate `OrderItem.isValid`, checked at construction by the frameworks. -/
structure OrderItem where
  product_id : String
  product_name : String
  quantity : Int
  unit_price : ℚ
deriving DecidableEq, Repr

/-- Constraints `quantity: ge=1` and `unit_price: ge=0` on `OrderItem`:
pydantic accepts the item exactly when this holds. -/
def OrderItem.isValid (i : OrderItem) : Bool :=
  1 ≤ i.quantity && 0 ≤ i.unit_price

/-- Derived property `OrderItem.total_price` of src/common/models.py. -/
def OrderItem.total_price (i : OrderItem) : ℚ :=
  (i.quantity : ℚ) * i.unit_price

/-- Pydantic model `OrderCreate` of src/common/models.py. -/
structure OrderCreate where
  customer_id : String
  items : List OrderItem
  shipping_address : String
deriving DecidableEq, Repr

/-- Pydantic acceptance of an `OrderCreate` body: `items` has `min_length=1`
and every item satisfies the `OrderItem` constraints. -/
def OrderCreate.isValid (oc : OrderCreate) : Bool :=
  !oc.items.isEmpty && oc.items.all OrderItem.isValid

/-- Pydantic model `Order` of src/common/models.py (identifier and timestamps
come from the environment; `created_at`/`updated_at` are not relevant to any
claim and are omitted from the record). -/
structure Order where
  order_id : String
  customer_id : String
  items : List OrderItem
  shipping_address : String
  total_amount : ℚ
  status : OrderStatus
deriving DecidableEq, Repr

/-- The Python expression `sum(item.quantity * item.unit_price for item in items)`:
a left fold starting from `0`, exactly as the generator expression runs. -/
def pySumTotal (items : List OrderItem) : ℚ :=
  items.foldl (fun acc i => acc + (i.quantity : ℚ) * i.unit_price) 0

/-- Classmethod `Order.from_create` of src/common/models.py, with the
uuid4-generated `order_id` passed explicitly. -/
def Order.from_create (oid : String) (oc : OrderCreate) : Order :=
  { order_id := oid
    customer_id := oc.customer_id
    items := oc.items
    shipping_address := oc.shipping_address
    total_amount := pySumTotal oc.items
    status := .pending }

/-- Pydantic model `PaymentRequest` of src/common/models.py. -/
structure PaymentRequest where
  order_id : String
  amount : ℚ
  currency : String
  payment_method : PaymentMethod
deriving DecidableEq, Repr

/-- Pydantic model `Payment` of src/common/models.py (timestamps are
abstract `Nat` ticks; `created_at` is omitted, no claim mentions it). -/
structure Payment where
  payment_id : String
  order_id : String
  amount : ℚ
  currency : String
  payment_method : PaymentMethod
  status : PaymentStatus
  transaction_id : Option String
  processed_at : Option Nat
  error_message : Option String
deriving DecidableEq, Repr

/-- Pydantic model `NotificationRequest` of src/common/models.py. -/
structure NotificationRequest where
  order_id : String
  payment_id : String
  recipient : String
  notification_type : NotificationType
deriving DecidableEq, Repr

/-- Pydantic model `Notification` of src/common/models.py (timestamps are
abstract `Nat` ticks; `created_at`/`delivered_at` omitted, no claim uses
them). -/
structure Notification where
  notification_id : String
  order_id : String
  payment_id : String
  recipient : String
  notification_type : NotificationType
  message : String
  status : NotificationStatus
  sent_at : Option Nat
  error_message : Option String
deriving DecidableEq, Repr

/-- Metric events recorded against the prometheus registry of
src/common/metrics.py, tagged with their label values. -/
inductive MetricEvent where
  | reqCount (protocol service method : String)
  | latency (protocol service method : String)
  | errCount (protocol service errorType : String)
  | payloadObs (protocol service direction : String)
deriving DecidableEq, Repr

/-- Number of `REQUEST_COUNT` increments in a list of metric events. -/
def countReq (evs : List MetricEvent) : Nat :=
  (evs.filter fun e => match e with | .reqCount _ _ _ => true | _ => false).length

/-- Number of `REQUEST_LATENCY` observations in a list of metric events. -/
def countLatency (evs : List MetricEvent) : Nat :=
  (evs.filter fun e => match e with | .latency _ _ _ => true | _ => false).length

/-- Number of `ERROR_COUNT` increments in a list of metric events. -/
def countErr (evs : List MetricEvent) : Nat :=
  (evs.filter fun e => match e with | .errCount _ _ _ => true | _ => false).length

/-- Number of `ERROR_COUNT` increments with a given `error_type` label. -/
def countErrType (t : String) (evs : List MetricEvent) : Nat :=
  (evs.filter fun e => match e with | .errCount _ _ ty => ty = t | _ => false).length

/-- HTTP error raised by a FastAPI handler (`HTTPException(status_code, detail)`). -/
structure HttpError where
  status : Nat
  detail : String
deriving DecidableEq, Repr

/-- Outcome of a JSON-RPC method: `Success(result)` or `Error(code, message)`
of the jsonrpcserver library. -/
inductive JsonRpcOutcome (α : Type) where
  | success (result : α)
  | error (code : Int) (message : String)
deriving DecidableEq, Repr

/-- gRPC status code set on the servicer context (only the codes the sources
use are modelled; `ok` stands for an untouched context). -/
inductive GrpcCode where
  | ok
  | internal
  | unavailable
deriving DecidableEq, Repr

/-- Environment of one ProcessPayment invocation: the uuid4 payment id, the
`uuid4().hex[:12]` suffix of the transaction token, and the tick at which
`processed_at` is stamped. -/
structure PayEnv where
  paymentId : String
  txnSuffix : String
  now : Nat
deriving DecidableEq, Repr

/-- The `Payment(...)` record built at the top of every ProcessPayment
handler, before the simulated gateway delay: status `PROCESSING`, and
`transaction_id` already set to the freshly generated token. -/
def initialPayment (env : PayEnv) (req : PaymentRequest) : Payment :=
  { payment_id := env.paymentId
    order_id := req.order_id
    amount := req.amount
    currency := req.currency
    payment_method := req.payment_method
    status := .processing
    transaction_id := some ("txn_" ++ env.txnSuffix)
    processed_at := none
    error_message := none }

/-- The same payment after `await simulate_payment_processing()`: the handler
mutates `status` to `COMPLETED` and stamps `processed_at`. -/
def completedPayment (env : PayEnv) (req : PaymentRequest) : Payment :=
  { initialPayment env req with
    status := .completed
    processed_at := some env.now }

/-- Result of the REST payment service downstream HTTP POST of the
notification request: either httpx raised `RequestError`, or an HTTP
response arrived whose JSON body has an optional `notification` field. -/
inductive RestNotifCall where
  | transportError (msg : String)
  | response (status : Nat) (notification : Option Notification)
deriving DecidableEq, Repr

/-- Body returned by the REST payment handler on its normal path. -/
structure RestPaymentBody where
  success : Bool
  payment : Payment
  notification : Option Notification
deriving DecidableEq, Repr

/-- Handler `process_payment` of src/protocols/rest/payment_service.py.
`notifCall` is how the downstream POST to the notification service went;
`fault` injects an unanticipated exception (with its `str(e)` text) raised
inside the `try` block before the downstream call.  Returns the HTTP outcome
and the metric events recorded. -/
def restProcessPayment (env : PayEnv) (req : PaymentRequest)
    (notifCall : RestNotifCall) (fault : Option String) :
    Except HttpError RestPaymentBody × List MetricEvent :=
  let req_ev : MetricEvent := .reqCount "rest" "payment" "process_payment"
  let payload_ev : MetricEvent := .payloadObs "rest" "payment" "request"
  match fault with
  | some msg =>
      (.error { status := 500, detail := msg },
       [req_ev, payload_ev, .errCount "rest" "payment" "internal_error"])
  | none =>
      match notifCall with
      | .transportError msg =>
          (.error { status := 503, detail := "Service unavailable: " ++ msg },
           [req_ev, payload_ev, .errCount "rest" "payment" "connection_error"])
      | .response status notif =>
          let notification_data := if status = 200 then notif else none
          (.ok { success := true
                 payment := completedPayment env req
                 notification := notification_data },
           [req_ev, payload_ev, .latency "rest" "payment" "process_payment"])

/-- Result of the JSON-RPC payment service downstream call
`send_notification` (aiohttp POST plus `parse` of the JSON-RPC envelope):
a client/transport exception, a parsed `Ok` whose result dict may hold a
`notification`, or a parsed `Error`. -/
inductive JrNotifCall where
  | transportError (msg : String)
  | okResult (notification : Option Notification)
  | rpcError (code : Int) (message : String)
deriving DecidableEq, Repr

/-- Result body of the JSON-RPC payment method on its success path. -/
structure JrPaymentBody where
  payment : Payment
  notification : Option Notification
deriving DecidableEq, Repr

/-- Method `process_payment` of src/protocols/jsonrpc/payment_service.py.
`payment_method` arrives as a raw string and is parsed with
`PaymentMethod(payment_method)`; a transport failure of the notification POST
is caught by the blanket `except Exception` and becomes
`Error(-32000, str(e))`. -/
def jsonrpcProcessPayment (env : PayEnv) (order_id : String) (amount : ℚ)
    (currency : String) (payment_method : String)
    (notifCall : JrNotifCall) (fault : Option String) :
    JsonRpcOutcome JrPaymentBody × List MetricEvent :=
  let req_ev : MetricEvent := .reqCount "jsonrpc" "payment" "process_payment"
  let err_ev : MetricEvent := .errCount "jsonrpc" "payment" "internal_error"
  match PaymentMethod.ofString payment_method with
  | none =>
      (.error (-32000) (payment_method ++ " is not a valid PaymentMethod"),
       [req_ev, err_ev])
  | some pm =>
      match fault with
      | some msg => (.error (-32000) msg, [req_ev, err_ev])
      | none =>
          let req : PaymentRequest :=
            { order_id := order_id, amount := amount, currency := currency
              payment_method := pm }
          match notifCall with
          | .transportError msg => (.error (-32000) msg, [req_ev, err_ev])
          | .okResult notif =>
              (.success { payment := completedPayment env req, notification := notif },
               [req_ev, .latency "jsonrpc" "payment" "process_payment"])
          | .rpcError _ _ =>
              (.success { payment := completedPayment env req, notification := none },
               [req_ev, .latency "jsonrpc" "payment" "process_payment"])

/-- Result of the gRPC payment servicer call through the `SendNotification` stub:
either the stub raised `grpc.RpcError`, or a response message arrived with a
`success` flag and a `notification` message. -/
inductive GrpcNotifCall where
  | rpcError (msg : String)
  | response (ok : Bool) (notification : Notification)
deriving DecidableEq, Repr

/-- Response of the gRPC payment servicer, together with the status code and
details set on the servicer context (`GrpcCode.ok` and `none` when the
context is untouched). -/
structure GrpcPayOutcome where
  success : Bool
  payment : Option Payment
  notification : Option Notification
  code : GrpcCode
  details : Option String
deriving DecidableEq, Repr

/-- Method `PaymentServicer.ProcessPayment` of
src/protocols/grpc/payment_service.py.  The notification stub call sits in
its own `try/except grpc.RpcError`, so a transport failure there is swallowed
(metered as `notification_failed`) and the payment still succeeds. -/
def grpcProcessPayment (env : PayEnv) (req : PaymentRequest)
    (notifCall : GrpcNotifCall) (fault : Option String) :
    GrpcPayOutcome × List MetricEvent :=
  let req_ev : MetricEvent := .reqCount "grpc" "payment" "process_payment"
  match fault with
  | some msg =>
      ({ success := false, payment := none, notification := none
         code := .internal, details := some msg },
       [req_ev, .errCount "grpc" "payment" "internal_error"])
  | none =>
      let pay := completedPayment env req
      let lat_ev : MetricEvent := .latency "grpc" "payment" "process_payment"
      match notifCall with
      | .rpcError _ =>
          ({ success := true, payment := some pay, notification := none
             code := .ok, details := none },
           [req_ev, .errCount "grpc" "payment" "notification_failed", lat_ev])
      | .response ok notif =>
          ({ success := true, payment := some pay
             notification := if ok then some notif else none
             code := .ok, details := none },
           [req_ev, lat_ev])

/-- Environment of one SendNotification invocation: the uuid4 notification id
and the tick at which `sent_at` is stamped. -/
structure NotifEnv where
  notifId : String
  now : Nat
deriving DecidableEq, Repr

/-- Message f-string of src/protocols/rest/notification_service.py. -/
def restNotifMessage (order_id payment_id : String) : String :=
  "Your order " ++ order_id ++ " has been confirmed. " ++
    "Payment " ++ payment_id ++ " processed successfully."

/-- Message f-string of src/protocols/jsonrpc/notification_service.py. -/
def jsonrpcNotifMessage (order_id payment_id : String) : String :=
  "Your order " ++ order_id ++ " has been confirmed. " ++
    "Payment " ++ payment_id ++ " processed successfully."

/-- Message f-string of src/protocols/grpc/notification_service.py. -/
def grpcNotifMessage (order_id payment_id : String) : String :=
  "Your order " ++ order_id ++ " has been confirmed. " ++
    "Payment " ++ payment_id ++ " processed successfully."

/-- The `Notification(...)` record built before the simulated send delay
(status `PENDING`, `sent_at` unset), shared shape of all three handlers. -/
def pendingNotification (env : NotifEnv) (req : NotificationRequest)
    (message : String) : Notification :=
  { notification_id := env.notifId
    order_id := req.order_id
    payment_id := req.payment_id
    recipient := req.recipient
    notification_type := req.notification_type
    message := message
    status := .pending
    sent_at := none
    error_message := none }

/-- The same notification after the simulated send: status `SENT`, `sent_at`
stamped. -/
def sentNotification (env : NotifEnv) (req : NotificationRequest)
    (message : String) : Notification :=
  { pendingNotification env req message with
    status := .sent
    sent_at := some env.now }

/-- Body returned by the REST notification handler on its normal path. -/
structure RestNotifBody where
  success : Bool
  notification : Notification
deriving DecidableEq, Repr

/-- Handler `send_notification` of
src/protocols/rest/notification_service.py (typed requests: pydantic already
validated the body, rejecting unknown `notification_type` with a 422 before
the handler runs). -/
def restSendNotification (env : NotifEnv) (req : NotificationRequest)
    (fault : Option String) :
    Except HttpError RestNotifBody × List MetricEvent :=
  let req_ev : MetricEvent := .reqCount "rest" "notification" "send_notification"
  match fault with
  | some msg =>
      (.error { status := 500, detail := msg },
       [req_ev, .errCount "rest" "notification" "internal_error"])
  | none =>
      (.ok { success := true
             notification :=
               sentNotification env req
                 (restNotifMessage req.order_id req.payment_id) },
       [req_ev, .latency "rest" "notification" "send_notification"])

/-- Result body of the JSON-RPC notification method on its success path. -/
structure JrNotifBody where
  notification : Notification
deriving DecidableEq, Repr

/-- Method `send_notification` of
src/protocols/jsonrpc/notification_service.py; `notification_type` arrives
as a raw string parsed with `NotificationType(notification_type)`, whose
`ValueError` falls into the blanket `except Exception`. -/
def jsonrpcSendNotification (env : NotifEnv) (order_id payment_id recipient
    notification_type : String) (fault : Option String) :
    JsonRpcOutcome JrNotifBody × List MetricEvent :=
  let req_ev : MetricEvent := .reqCount "jsonrpc" "notification" "send_notification"
  let err_ev : MetricEvent := .errCount "jsonrpc" "notification" "internal_error"
  match NotificationType.ofString notification_type with
  | none =>
      (.error (-32000)
        (notification_type ++ " is not a valid NotificationType"),
       [req_ev, err_ev])
  | some ty =>
      match fault with
      | some msg => (.error (-32000) msg, [req_ev, err_ev])
      | none =>
          let req : NotificationRequest :=
            { order_id := order_id, payment_id := payment_id
              recipient := recipient, notification_type := ty }
          (.success { notification :=
              sentNotification env req (jsonrpcNotifMessage order_id payment_id) },
           [req_ev, .latency "jsonrpc" "notification" "send_notification"])

/-- Response of the gRPC notification servicer plus its context status. -/
structure GrpcNotifOutcome where
  success : Bool
  notification : Option Notification
  code : GrpcCode
  details : Option String
deriving DecidableEq, Repr

/-- Method `NotificationServicer.SendNotification` of
src/protocols/grpc/notification_service.py. -/
def grpcSendNotification (env : NotifEnv) (req : NotificationRequest)
    (fault : Option String) :
    GrpcNotifOutcome × List MetricEvent :=
  let req_ev : MetricEvent := .reqCount "grpc" "notification" "send_notification"
  match fault with
  | some msg =>
      ({ success := false, notification := none
         code := .internal, details := some msg },
       [req_ev, .errCount "grpc" "notification" "internal_error"])
  | none =>
      ({ success := true
         notification :=
           some (sentNotification env req
             (grpcNotifMessage req.order_id req.payment_id))
         code := .ok, details := none },
       [req_ev, .latency "grpc" "notification" "send_notification"])

/-- JSON body of a downstream `POST /payments` response as read by the REST
order service: a `success` flag and optional `payment` / `notification`
fields (fetched with `.get`). -/
structure RestPayRespBody where
  success : Bool
  payment : Option Payment
  notification : Option Notification
deriving DecidableEq, Repr

/-- Result of the REST order service downstream HTTP POST to the payment
service. -/
inductive RestPayCall where
  | transportError (msg : String)
  | response (status : Nat) (body : RestPayRespBody)
deriving DecidableEq, Repr

/-- Pydantic model `OrderResponse` of src/common/models.py
(`total_processing_time_ms` is wall-clock noise and is omitted). -/
structure OrderResponse where
  success : Bool
  order : Order
  payment : Option Payment
  notification : Option Notification
deriving DecidableEq, Repr

/-- Handler `create_order` of src/protocols/rest/order_service.py.
FastAPI/pydantic validates the `OrderCreate` body first and answers 422
without entering the handler when it is invalid.  Inside the handler the
order is built, the payment request is POSTed, a non-200 downstream status
is re-raised as an `HTTPException` with that same status (passing through
the dedicated `except HTTPException: raise` arm, which increments no error
counter), and the `success` flag of the body is never inspected.  Returns the
HTTP outcome, the metric events and the downstream payment calls
attempted. -/
def restCreateOrder (oid : String) (req : OrderCreate) (payCall : RestPayCall)
    (fault : Option String) :
    Except HttpError OrderResponse × List MetricEvent × List PaymentRequest :=
  if ¬ req.isValid then
    (.error { status := 422, detail := "validation error for OrderCreate" }, [], [])
  else
    let req_ev : MetricEvent := .reqCount "rest" "order" "create_order"
    let payload_ev : MetricEvent := .payloadObs "rest" "order" "request"
    let order := Order.from_create oid req
    match fault with
    | some msg =>
        (.error { status := 500, detail := msg },
         [req_ev, payload_ev, .errCount "rest" "order" "internal_error"], [])
    | none =>
        let payment_request : PaymentRequest :=
          { order_id := order.order_id, amount := order.total_amount
            currency := "USD", payment_method := .credit_card }
        match payCall with
        | .transportError msg =>
            (.error { status := 503, detail := "Service unavailable: " ++ msg },
             [req_ev, payload_ev, .errCount "rest" "order" "connection_error"],
             [payment_request])
        | .response status body =>
            if status ≠ 200 then
              (.error { status := status, detail := "Payment processing failed" },
               [req_ev, payload_ev], [payment_request])
            else
              (.ok { success := true, order := order
                     payment := body.payment, notification := body.notification },
               [req_ev, payload_ev, .latency "rest" "order" "create_order",
                .payloadObs "rest" "order" "response"],
               [payment_request])

/-- Parsed result of the JSON-RPC order service downstream
`process_payment` call: transport exception, parsed `Ok` (whose result dict
may hold `payment` / `notification`), or parsed `Error`. -/
inductive JrPayCall where
  | transportError (msg : String)
  | okResult (payment : Option Payment) (notification : Option Notification)
  | rpcError (code : Int) (message : String)
deriving DecidableEq, Repr

/-- Result body of the JSON-RPC order method on its success path. -/
structure JrOrderBody where
  order : Order
  payment : Option Payment
  notification : Option Notification
deriving DecidableEq, Repr

/-- Method `create_order` of src/protocols/jsonrpc/order_service.py.  The
items arrive as raw dicts and are fed one by one to the `OrderItem`
constructor inside the `try` block, so a pydantic `ValidationError` (bad
item, or empty list at `OrderCreate`) is caught by the blanket
`except Exception` and surfaces as `Error(-32000, str(e))` with an
`internal_error` count — before any downstream call.  A parsed downstream
`Error` becomes `Error(-32000, "Payment failed")` with a `payment_failed`
count; a transport failure of the POST falls into the blanket except. -/
def jsonrpcCreateOrder (oid : String) (customer_id : String)
    (items : List OrderItem) (shipping_address : String)
    (payCall : JrPayCall) (fault : Option String) :
    JsonRpcOutcome JrOrderBody × List MetricEvent × List PaymentRequest :=
  let req_ev : MetricEvent := .reqCount "jsonrpc" "order" "create_order"
  let err_ev : MetricEvent := .errCount "jsonrpc" "order" "internal_error"
  let oc : OrderCreate :=
    { customer_id := customer_id, items := items
      shipping_address := shipping_address }
  if ¬ oc.isValid then
    (.error (-32000) "validation error for OrderItem", [req_ev, err_ev], [])
  else
    match fault with
    | some msg => (.error (-32000) msg, [req_ev, err_ev], [])
    | none =>
        let order := Order.from_create oid oc
        let payment_request : PaymentRequest :=
          { order_id := order.order_id, amount := order.total_amount
            currency := "USD", payment_method := .credit_card }
        match payCall with
        | .transportError msg =>
            (.error (-32000) msg, [req_ev, err_ev], [payment_request])
        | .rpcError _ _ =>
            (.error (-32000) "Payment failed",
             [req_ev, .errCount "jsonrpc" "order" "payment_failed"],
             [payment_request])
        | .okResult pay notif =>
            (.success { order := order, payment := pay, notification := notif },
             [req_ev, .latency "jsonrpc" "order" "create_order"],
             [payment_request])

/-- A `ProcessPaymentResponse` message as received by the gRPC order
servicer: `success` flag plus optional `payment` / `notification`
submessages. -/
structure GrpcPayRespMsg where
  success : Bool
  payment : Option Payment
  notification : Option Notification
deriving DecidableEq, Repr

/-- Result of the gRPC order servicer call through the `ProcessPayment` stub. -/
inductive GrpcPayCall where
  | rpcError (msg : String)
  | response (msg : GrpcPayRespMsg)
deriving DecidableEq, Repr

/-- Request message `CreateOrderRequest` of the gRPC binding: proto3 items
carry the same four fields as `OrderItem` but no validation constraints. -/
structure GrpcCreateOrderRequest where
  customer_id : String
  items : List OrderItem
  shipping_address : String
deriving DecidableEq, Repr

/-- The inline `sum(item.quantity * item.unit_price for item in
request.items)` of src/protocols/grpc/order_service.py. -/
def grpcTotalAmount (items : List OrderItem) : ℚ :=
  items.foldl (fun acc i => acc + (i.quantity : ℚ) * i.unit_price) 0

/-- Response of the gRPC order servicer plus its context status. -/
structure GrpcOrderOutcome where
  success : Bool
  order : Option Order
  payment : Option Payment
  notification : Option Notification
  code : GrpcCode
  details : Option String
deriving DecidableEq, Repr

/-- Method `OrderServicer.CreateOrder` of
src/protocols/grpc/order_service.py.  No item validation of any kind is
performed: the total is summed over the raw proto items and the payment stub
is always called (unless an internal fault strikes first).  A downstream
`success=False` answers `success=False` with the context set to `INTERNAL`;
a stub `RpcError` answers `success=False` with the context set to
`UNAVAILABLE`. -/
def grpcCreateOrder (oid : String) (req : GrpcCreateOrderRequest)
    (payCall : GrpcPayCall) (fault : Option String) :
    GrpcOrderOutcome × List MetricEvent × List PaymentRequest :=
  let req_ev : MetricEvent := .reqCount "grpc" "order" "create_order"
  match fault with
  | some msg =>
      ({ success := false, order := none, payment := none, notification := none
         code := .internal, details := some msg },
       [req_ev, .errCount "grpc" "order" "internal_error"], [])
  | none =>
      let order : Order :=
        { order_id := oid, customer_id := req.customer_id
          items := req.items, shipping_address := req.shipping_address
          total_amount := grpcTotalAmount req.items, status := .pending }
      let payment_request : PaymentRequest :=
        { order_id := order.order_id, amount := order.total_amount
          currency := "USD", payment_method := .credit_card }
      match payCall with
      | .rpcError msg =>
          ({ success := false, order := none, payment := none, notification := none
             code := .unavailable, details := some ("Service unavailable: " ++ msg) },
           [req_ev, .errCount "grpc" "order" "connection_error"],
           [payment_request])
      | .response m =>
          if ¬ m.success then
            ({ success := false, order := none, payment := none, notification := none
               code := .internal, details := some "Payment processing failed" },
             [req_ev, .errCount "grpc" "order" "payment_failed"],
             [payment_request])
          else
            ({ success := true, order := some order
               payment := m.payment, notification := m.notification
               code := .ok, details := none },
             [req_ev, .latency "grpc" "order" "create_order"],
             [payment_request])

/-- Body of a health-check endpoint. -/
structure HealthBody where
  status : String
  service : String
deriving DecidableEq, Repr

/-- Handler `health_check` of src/protocols/rest/order_service.py. -/
def restOrderHealth : HealthBody := { status := "healthy", service := "order-rest" }

/-- Handler `health_check` of src/protocols/rest/payment_service.py. -/
def restPaymentHealth : HealthBody := { status := "healthy", service := "payment-rest" }

/-- Handler `health_check` of src/protocols/rest/notification_service.py. -/
def restNotificationHealth : HealthBody :=
  { status := "healthy", service := "notification-rest" }

/-- Handler `health_check` of src/protocols/jsonrpc/order_service.py. -/
def jsonrpcOrderHealth : HealthBody :=
  { status := "healthy", service := "order-jsonrpc" }

/-- Handler `health_check` of src/protocols/jsonrpc/payment_service.py. -/
def jsonrpcPaymentHealth : HealthBody :=
  { status := "healthy", service := "payment-jsonrpc" }

/-- Handler `health_check` of src/protocols/jsonrpc/notification_service.py. -/
def jsonrpcNotificationHealth : HealthBody :=
  { status := "healthy", service := "notification-jsonrpc" }

/-- The externally reachable surface one service process serves: its HTTP
routes (method, path) and its RPC-framework methods. -/
structure ServerSurface where
  httpRoutes : List (String × String)
  rpcMethods : List String
deriving DecidableEq, Repr

/-- Routes of the FastAPI app of src/protocols/rest/order_service.py. -/
def restOrderSurface : ServerSurface :=
  { httpRoutes := [("GET", "/health"), ("GET", "/metrics"), ("POST", "/orders")]
    rpcMethods := [] }

/-- Routes of the FastAPI app of src/protocols/rest/payment_service.py. -/
def restPaymentSurface : ServerSurface :=
  { httpRoutes := [("GET", "/health"), ("GET", "/metrics"), ("POST", "/payments")]
    rpcMethods := [] }

/-- Routes of the FastAPI app of src/protocols/rest/notification_service.py. -/
def restNotificationSurface : ServerSurface :=
  { httpRoutes := [("GET", "/health"), ("GET", "/metrics"), ("POST", "/notifications")]
    rpcMethods := [] }

/-- Routes registered by `create_app` of
src/protocols/jsonrpc/order_service.py. -/
def jsonrpcOrderSurface : ServerSurface :=
  { httpRoutes := [("POST", "/"), ("GET", "/health"), ("GET", "/metrics")]
    rpcMethods := ["create_order"] }

/-- Routes registered by `create_app` of
src/protocols/jsonrpc/payment_service.py. -/
def jsonrpcPaymentSurface : ServerSurface :=
  { httpRoutes := [("POST", "/"), ("GET", "/health"), ("GET", "/metrics")]
    rpcMethods := ["process_payment"] }

/-- Routes registered by `create_app` of
src/protocols/jsonrpc/notification_service.py. -/
def jsonrpcNotificationSurface : ServerSurface :=
  { httpRoutes := [("POST", "/"), ("GET", "/health"), ("GET", "/metrics")]
    rpcMethods := ["send_notification"] }

/-- Surface started by `serve` of src/protocols/grpc/order_service.py: the
gRPC server registers only the `OrderService` servicer (method
`CreateOrder`), and `start_http_server(9021)` starts the prometheus
exposition server, which serves only the metrics page.  No health-check
endpoint of any kind is registered. -/
def grpcOrderSurface : ServerSurface :=
  { httpRoutes := [("GET", "/metrics")]
    rpcMethods := ["CreateOrder"] }

/-- Surface started by `serve` of src/protocols/grpc/payment_service.py. -/
def grpcPaymentSurface : ServerSurface :=
  { httpRoutes := [("GET", "/metrics")]
    rpcMethods := ["ProcessPayment"] }

/-- Surface started by `serve` of
src/protocols/grpc/notification_service.py. -/
def grpcNotificationSurface : ServerSurface :=
  { httpRoutes := [("GET", "/metrics")]
    rpcMethods := ["SendNotification"] }

/-- A surface exposes a health check when it has the HTTP route
`GET /health` or an RPC method whose name mentions health. -/
def ServerSurface.hasHealth (s : ServerSurface) : Bool :=
  s.httpRoutes.contains ("GET", "/health") || s.rpcMethods.contains "Health"

/-- Concrete order item of the spec scenario (2 × 10.0). -/
def exItem : OrderItem :=
  { product_id := "p1", product_name := "Widget", quantity := 2, unit_price := 10 }

/-- Concrete valid order-creation request of the spec scenario. -/
def exReq : OrderCreate :=
  { customer_id := "cust_1", items := [exItem], shipping_address := "1 Main St" }

/-- Concrete payment environment. -/
def exPayEnv : PayEnv :=
  { paymentId := "pay_1", txnSuffix := "abc123def456", now := 7 }

/-- Concrete payment request. -/
def exPayReq : PaymentRequest :=
  { order_id := "ord_1", amount := 20, currency := "USD",
    payment_method := .credit_card }

/-- Concrete notification environment. -/
def exNotifEnv : NotifEnv := { notifId := "n_1", now := 9 }

/-- A left fold adding `f i` at each step equals the sum of the mapped
list. -/
theorem foldl_add_map_sum (f : OrderItem → ℚ) (l : List OrderItem) :
    ∀ a : ℚ, l.foldl (fun acc i => acc + f i) a = a + (l.map f).sum := by
  induction l with
  | nil => intro a; simp
  | cons x xs ih => intro a; simp [ih, add_assoc]

/-- The generator-expression sum of src/common/models.py equals the
mathematical sum of the per-item total prices. -/
theorem pySumTotal_eq_sum (l : List OrderItem) :
    pySumTotal l = (l.map OrderItem.total_price).sum := by
  simpa [pySumTotal, OrderItem.total_price] using
    foldl_add_map_sum OrderItem.total_price l 0

/-- C3: for every valid non-empty item list, the created order has
`total_amount = Σ quantity_i × unit_price_i` exactly, and the inline gRPC
summation computes the very same value — one numeric rule in every binding,
with no additional rounding anywhere. -/
theorem c3_total_amount_exact (oid : String) (oc : OrderCreate)
    (h : oc.isValid = true) :
    (Order.from_create oid oc).total_amount
        = (oc.items.map OrderItem.total_price).sum
    ∧ grpcTotalAmount oc.items = (oc.items.map OrderItem.total_price).sum
    ∧ grpcTotalAmount oc.items = (Order.from_create oid oc).total_amount :=
  ⟨pySumTotal_eq_sum oc.items, pySumTotal_eq_sum oc.items, rfl⟩

/-- Witness for C3 at the concrete spec scenario (one item, 2 × 10.0):
the hypothesis holds and the total is 20. -/
theorem c3_total_amount_exact_witness :
    exReq.isValid = true
    ∧ ((Order.from_create "ord_1" exReq).total_amount
          = (exReq.items.map OrderItem.total_price).sum
      ∧ grpcTotalAmount exReq.items = (exReq.items.map OrderItem.total_price).sum
      ∧ grpcTotalAmount exReq.items = (Order.from_create "ord_1" exReq).total_amount)
    ∧ (Order.from_create "ord_1" exReq).total_amount = 20 :=
  ⟨by decide, c3_total_amount_exact "ord_1" exReq (by decide),
    by norm_num [Order.from_create, pySumTotal, exReq, exItem]⟩

/-- C6: for identical `order_id` / `payment_id`, the three protocol bindings
synthesize the identical deterministic message string, and on success each
returns a notification with status `sent` and `sent_at` stamped. -/
theorem c6_notification_parity (env : NotifEnv) (req : NotificationRequest) :
    restNotifMessage req.order_id req.payment_id
        = jsonrpcNotifMessage req.order_id req.payment_id
    ∧ jsonrpcNotifMessage req.order_id req.payment_id
        = grpcNotifMessage req.order_id req.payment_id
    ∧ (restSendNotification env req none).1
        = .ok { success := true,
                notification := sentNotification env req
                  (restNotifMessage req.order_id req.payment_id) }
    ∧ (jsonrpcSendNotification env req.order_id req.payment_id req.recipient
          req.notification_type.value none).1
        = .success { notification :=
                       sentNotification env req
                         (jsonrpcNotifMessage req.order_id req.payment_id) }
    ∧ (grpcSendNotification env req none).1
        = { success := true,
            notification := some (sentNotification env req
              (grpcNotifMessage req.order_id req.payment_id)),
            code := .ok, details := none }
    ∧ (sentNotification env req
        (restNotifMessage req.order_id req.payment_id)).status = .sent
    ∧ (sentNotification env req
        (restNotifMessage req.order_id req.payment_id)).sent_at
        = some env.now := by
  obtain ⟨oid, pid, r, ty⟩ := req
  cases ty <;> exact ⟨rfl, rfl, rfl, rfl, rfl, rfl, rfl⟩

/-- Counterexample to C7: in every binding the payment record built BEFORE
the simulated gateway delay — still status `processing`, `processed_at`
unset — already carries the generated `transaction_id`; so the token is not
set at the completion point, contrary to the claim. -/
theorem c7_counterexample :
    (initialPayment exPayEnv exPayReq).status = PaymentStatus.processing
    ∧ (initialPayment exPayEnv exPayReq).processed_at = none
    ∧ (initialPayment exPayEnv exPayReq).transaction_id
        = some "txn_abc123def456" :=
  ⟨rfl, rfl, rfl⟩

/-- C7 (amended): the payment is constructed with status `processing` and
`transaction_id` already stamped with the freshly generated token; the
simulated delay is passed and only then are status `completed` and
`processed_at` stamped, leaving `transaction_id` unchanged; each of the
three bindings returns exactly this completed payment. -/
theorem c7_transaction_id_before_delay (env : PayEnv) (req : PaymentRequest)
    (n : Notification) :
    (initialPayment env req).status = .processing
    ∧ (initialPayment env req).transaction_id = some ("txn_" ++ env.txnSuffix)
    ∧ (initialPayment env req).processed_at = none
    ∧ completedPayment env req
        = { initialPayment env req with
            status := .completed, processed_at := some env.now }
    ∧ (restProcessPayment env req (.response 200 none) none).1
        = .ok { success := true, payment := completedPayment env req,
                notification := none }
    ∧ (jsonrpcProcessPayment env req.order_id req.amount req.currency
          req.payment_method.value (.okResult none) none).1
        = .success { payment := completedPayment env req, notification := none }
    ∧ (grpcProcessPayment env req (.response true n) none).1
        = { success := true, payment := some (completedPayment env req),
            notification := some n, code := .ok, details := none } := by
  obtain ⟨o, a, c, pm⟩ := req
  cases pm <;> exact ⟨rfl, rfl, rfl, rfl, rfl, rfl, rfl⟩

/-- C10: the REST order binding never answers HTTP 200 with a
`success = false` body — every normal return carries `success = true`, and
every failure path raises an `HTTPException` whose status is not 200. -/
theorem c10_rest_order_200_implies_success (oid : String) (req : OrderCreate)
    (payCall : RestPayCall) (fault : Option String) :
    (match (restCreateOrder oid req payCall fault).1 with
     | .ok r => r.success = true
     | .error e => e.status ≠ 200) := by
  unfold restCreateOrder
  by_cases hv : req.isValid = true
  · rw [if_neg (by simp [hv])]
    cases fault with
    | some msg => exact (by decide : (500 : Nat) ≠ 200)
    | none =>
      cases payCall with
      | transportError msg => exact (by decide : (503 : Nat) ≠ 200)
      | response status body =>
        dsimp only
        by_cases hs : status = 200
        · subst hs
          exact rfl
        · rw [if_pos hs]
          exact hs
  · rw [if_pos (by simpa using hv)]
    exact (by decide : (422 : Nat) ≠ 200)

/-- Concrete notification record used to instantiate downstream responses. -/
def exNotification : Notification :=
  { notification_id := "n_1", order_id := "ord_1", payment_id := "pay_1",
    recipient := "customer@example.com", notification_type := .email,
    message := "m", status := .sent, sent_at := some 9, error_message := none }

/-- Counterexample to C1: in the REST binding a transport failure of the
SendNotification call is NOT swallowed — the payment request itself fails
with a raised HTTP 503 instead of returning success = true with a null
notification. -/
theorem c1_counterexample :
    (restProcessPayment exPayEnv exPayReq
        (.transportError "Connection refused") none).1
      = .error { status := 503,
                 detail := "Service unavailable: Connection refused" } := rfl

/-- C1 (amended): when the SendNotification call completes but reports a
business failure, every binding still returns success = true with a null
notification; a transport/connection failure of the notification call is
swallowed only by the gRPC binding, while the REST binding raises HTTP 503
and the JSON-RPC binding returns a JSON-RPC error, failing the payment
request itself. -/
theorem c1_notification_failure_handling (env : PayEnv) (req : PaymentRequest)
    (status : Nat) (hs : status ≠ 200) (notif : Option Notification)
    (code : Int) (emsg msg : String) (n : Notification) :
    (restProcessPayment env req (.response status notif) none).1
        = .ok { success := true, payment := completedPayment env req,
                notification := none }
    ∧ (jsonrpcProcessPayment env req.order_id req.amount req.currency
          req.payment_method.value (.rpcError code emsg) none).1
        = .success { payment := completedPayment env req, notification := none }
    ∧ (grpcProcessPayment env req (.rpcError msg) none).1
        = { success := true, payment := some (completedPayment env req),
            notification := none, code := .ok, details := none }
    ∧ (grpcProcessPayment env req (.response false n) none).1
        = { success := true, payment := some (completedPayment env req),
            notification := none, code := .ok, details := none }
    ∧ (restProcessPayment env req (.transportError msg) none).1
        = .error { status := 503, detail := "Service unavailable: " ++ msg }
    ∧ (jsonrpcProcessPayment env req.order_id req.amount req.currency
          req.payment_method.value (.transportError msg) none).1
        = .error (-32000) msg := by
  obtain ⟨o, a, c, pm⟩ := req
  refine ⟨?_, ?_, rfl, rfl, rfl, ?_⟩
  · simp [restProcessPayment, hs]
  · cases pm <;> rfl
  · cases pm <;> rfl

/-- Witness for C1 (amended) at concrete inputs: a 500 notification response
and concrete error strings. -/
theorem c1_notification_failure_handling_witness :
    (500 : Nat) ≠ 200
    ∧ ((restProcessPayment exPayEnv exPayReq (.response 500 none) none).1
          = .ok { success := true, payment := completedPayment exPayEnv exPayReq,
                  notification := none }
      ∧ (jsonrpcProcessPayment exPayEnv exPayReq.order_id exPayReq.amount
            exPayReq.currency exPayReq.payment_method.value
            (.rpcError (-32000) "Payment failed") none).1
          = .success { payment := completedPayment exPayEnv exPayReq,
                       notification := none }
      ∧ (grpcProcessPayment exPayEnv exPayReq (.rpcError "Connection refused") none).1
          = { success := true,
              payment := some (completedPayment exPayEnv exPayReq),
              notification := none, code := .ok, details := none }
      ∧ (grpcProcessPayment exPayEnv exPayReq
            (.response false exNotification) none).1
          = { success := true,
              payment := some (completedPayment exPayEnv exPayReq),
              notification := none, code := .ok, details := none }
      ∧ (restProcessPayment exPayEnv exPayReq
            (.transportError "Connection refused") none).1
          = .error { status := 503,
                     detail := "Service unavailable: " ++ "Connection refused" }
      ∧ (jsonrpcProcessPayment exPayEnv exPayReq.order_id exPayReq.amount
            exPayReq.currency exPayReq.payment_method.value
            (.transportError "Connection refused") none).1
          = .error (-32000) "Connection refused") :=
  ⟨by decide,
    c1_notification_failure_handling exPayEnv exPayReq 500 (by decide) none
      (-32000) "Payment failed" "Connection refused" exNotification⟩

/-- Counterexample to C2: the REST order binding never inspects the
`success` flag of an HTTP-200 payment response — given a downstream body
with `success = false` it still returns an order response with
`success = true` (and no payment attached), not the claimed
`success = false` business result. -/
theorem c2_counterexample :
    (restCreateOrder "ord_1" exReq
        (.response 200 { success := false, payment := none, notification := none })
        none).1
      = .ok { success := true, order := Order.from_create "ord_1" exReq,
              payment := none, notification := none } := rfl

/-- C2 (amended): on a downstream business failure (payment response with
success = false), only the gRPC binding returns a success = false result
with no payment/notification — and even it marks the context INTERNAL with
details `Payment processing failed` rather than a plain result; the
JSON-RPC binding returns the error envelope `Error(-32000, Payment failed)`;
the REST binding treats any HTTP-200 payment response as success without
reading the flag, and re-raises a non-200 downstream status as an
`HTTPException` bearing that status. -/
theorem c2_payment_business_failure (oid : String) (req : OrderCreate)
    (hv : req.isValid = true) (cid : String) (items : List OrderItem)
    (sa : String) (hv2 : (OrderCreate.mk cid items sa).isValid = true)
    (greq : GrpcCreateOrderRequest) (pay : Option Payment)
    (notif : Option Notification) (body : RestPayRespBody)
    (status : Nat) (hs : status ≠ 200) (code : Int) (emsg : String) :
    (grpcCreateOrder oid greq
        (.response { success := false, payment := pay, notification := notif })
        none).1
      = { success := false, order := none, payment := none, notification := none,
          code := .internal, details := some "Payment processing failed" }
    ∧ (jsonrpcCreateOrder oid cid items sa (.rpcError code emsg) none).1
        = .error (-32000) "Payment failed"
    ∧ (restCreateOrder oid req (.response 200 body) none).1
        = .ok { success := true, order := Order.from_create oid req,
                payment := body.payment, notification := body.notification }
    ∧ (restCreateOrder oid req (.response status body) none).1
        = .error { status := status, detail := "Payment processing failed" } := by
  refine ⟨rfl, ?_, ?_, ?_⟩
  · simp [jsonrpcCreateOrder, hv2]
  · simp [restCreateOrder, hv]
  · simp [restCreateOrder, hv, hs]

/-- Concrete gRPC order request mirroring the spec scenario. -/
def exGrpcReq : GrpcCreateOrderRequest :=
  { customer_id := "cust_1", items := [exItem], shipping_address := "1 Main St" }

/-- Witness for C2 (amended) at concrete inputs. -/
theorem c2_payment_business_failure_witness :
    exReq.isValid = true
    ∧ (OrderCreate.mk "cust_1" [exItem] "1 Main St").isValid = true
    ∧ (500 : Nat) ≠ 200
    ∧ ((grpcCreateOrder "ord_1" exGrpcReq
          (.response { success := false, payment := none, notification := none })
          none).1
        = { success := false, order := none, payment := none, notification := none,
            code := .internal, details := some "Payment processing failed" }
      ∧ (jsonrpcCreateOrder "ord_1" "cust_1" [exItem] "1 Main St"
            (.rpcError (-32000) "Payment failed") none).1
          = .error (-32000) "Payment failed"
      ∧ (restCreateOrder "ord_1" exReq
            (.response 200 { success := true, payment := none, notification := none })
            none).1
          = .ok { success := true, order := Order.from_create "ord_1" exReq,
                  payment := ({ success := true, payment := none,
                                notification := none } : RestPayRespBody).payment,
                  notification := ({ success := true, payment := none,
                                     notification := none } : RestPayRespBody).notification }
      ∧ (restCreateOrder "ord_1" exReq
            (.response 500 { success := true, payment := none, notification := none })
            none).1
          = .error { status := 500, detail := "Payment processing failed" }) :=
  ⟨by decide, by decide, by decide,
    c2_payment_business_failure "ord_1" exReq (by decide) "cust_1" [exItem]
      "1 Main St" (by decide) exGrpcReq none none
      { success := true, payment := none, notification := none } 500 (by decide)
      (-32000) "Payment failed"⟩

/-- An item violating the `quantity ≥ 1` constraint. -/
def badItem : OrderItem :=
  { product_id := "p1", product_name := "Test", quantity := 0, unit_price := 10 }

/-- gRPC order request carrying the invalid item. -/
def badGrpcReq : GrpcCreateOrderRequest :=
  { customer_id := "c", items := [badItem], shipping_address := "A" }

/-- Concrete completed payment record used in downstream responses. -/
def exPayment : Payment :=
  { payment_id := "pay_1", order_id := "ord_9", amount := 0, currency := "USD",
    payment_method := .credit_card, status := .completed,
    transaction_id := some "txn_abc123def456", processed_at := some 7,
    error_message := none }

/-- C4, evaluated at the failing input: the gRPC binding performs no item
validation — a request whose only item has `quantity = 0` (invalid per the
shared `OrderItem` constraints, as the first conjunct shows) is not rejected:
the downstream ProcessPayment call IS attempted and, when the payment
service answers success, the order is reported created with success = true.
The REST and JSON-RPC bindings reject the same item before any downstream
call (empty call lists, last two conjuncts). -/
theorem c4_grpc_skips_validation :
    badItem.isValid = false
    ∧ (grpcCreateOrder "ord_9" badGrpcReq
          (.response { success := true, payment := some exPayment,
                       notification := none }) none).2.2
        = [{ order_id := "ord_9", amount := 0, currency := "USD",
             payment_method := .credit_card }]
    ∧ (grpcCreateOrder "ord_9" badGrpcReq
          (.response { success := true, payment := some exPayment,
                       notification := none }) none).1.success
        = true
    ∧ (restCreateOrder "ord_9"
          { customer_id := "c", items := [badItem], shipping_address := "A" }
          (.response 200 { success := true, payment := some exPayment,
                           notification := none }) none).2.2
        = []
    ∧ (jsonrpcCreateOrder "ord_9" "c" [badItem] "A"
          (.okResult (some exPayment) none) none).2.2
        = [] := by
  refine ⟨rfl, ?_, rfl, rfl, rfl⟩
  simp [grpcCreateOrder, badGrpcReq, grpcTotalAmount, badItem]

/-- Counterexample to C5: a failing CreateOrder call (downstream connection
error in the REST binding) records NO latency observation — the claim
demands exactly one latency observation per call regardless of outcome. -/
theorem c5_counterexample :
    ((restCreateOrder "ord_1" exReq (.transportError "Connection failed") none).1
        = .error { status := 503,
                   detail := "Service unavailable: Connection failed" })
    ∧ countLatency
        ((restCreateOrder "ord_1" exReq
            (.transportError "Connection failed") none).2.1) = 0 :=
  ⟨rfl, rfl⟩

/-- C5 (amended): each order-service binding records exactly one
request-counter increment per handled call regardless of outcome, but the
latency observation only on the success path (failing calls record none);
each failure path records exactly one error-counter increment labeled by its
kind — except the REST path for a non-200 downstream response, which
re-raises the HTTPException and records no error counter at all (and a REST
request rejected by pydantic validation never reaches the handler, recording
nothing).  The event-list equations below establish all of this. -/
theorem c5_metric_events (oid : String) (req : OrderCreate)
    (hv : req.isValid = true) (cid : String) (items : List OrderItem)
    (sa : String) (hv2 : (OrderCreate.mk cid items sa).isValid = true)
    (greq : GrpcCreateOrderRequest) (body : RestPayRespBody)
    (status : Nat) (hs : status ≠ 200) (msg emsg fmsg : String) (code : Int)
    (pay : Option Payment) (notif : Option Notification)
    (m : GrpcPayRespMsg) (hm : m.success = true) :
    (restCreateOrder oid req (.response 200 body) none).2.1
        = [.reqCount "rest" "order" "create_order",
           .payloadObs "rest" "order" "request",
           .latency "rest" "order" "create_order",
           .payloadObs "rest" "order" "response"]
    ∧ (restCreateOrder oid req (.transportError msg) none).2.1
        = [.reqCount "rest" "order" "create_order",
           .payloadObs "rest" "order" "request",
           .errCount "rest" "order" "connection_error"]
    ∧ (restCreateOrder oid req (.response status body) none).2.1
        = [.reqCount "rest" "order" "create_order",
           .payloadObs "rest" "order" "request"]
    ∧ (restCreateOrder oid req (.response 200 body) (some fmsg)).2.1
        = [.reqCount "rest" "order" "create_order",
           .payloadObs "rest" "order" "request",
           .errCount "rest" "order" "internal_error"]
    ∧ (jsonrpcCreateOrder oid cid items sa (.okResult pay notif) none).2.1
        = [.reqCount "jsonrpc" "order" "create_order",
           .latency "jsonrpc" "order" "create_order"]
    ∧ (jsonrpcCreateOrder oid cid items sa (.rpcError code emsg) none).2.1
        = [.reqCount "jsonrpc" "order" "create_order",
           .errCount "jsonrpc" "order" "payment_failed"]
    ∧ (jsonrpcCreateOrder oid cid items sa (.transportError msg) none).2.1
        = [.reqCount "jsonrpc" "order" "create_order",
           .errCount "jsonrpc" "order" "internal_error"]
    ∧ (jsonrpcCreateOrder oid cid items sa (.okResult pay notif) (some fmsg)).2.1
        = [.reqCount "jsonrpc" "order" "create_order",
           .errCount "jsonrpc" "order" "internal_error"]
    ∧ (grpcCreateOrder oid greq (.response m) none).2.1
        = [.reqCount "grpc" "order" "create_order",
           .latency "grpc" "order" "create_order"]
    ∧ (grpcCreateOrder oid greq (.rpcError msg) none).2.1
        = [.reqCount "grpc" "order" "create_order",
           .errCount "grpc" "order" "connection_error"]
    ∧ (grpcCreateOrder oid greq
          (.response { success := false, payment := pay, notification := notif })
          none).2.1
        = [.reqCount "grpc" "order" "create_order",
           .errCount "grpc" "order" "payment_failed"]
    ∧ (grpcCreateOrder oid greq (.response m) (some fmsg)).2.1
        = [.reqCount "grpc" "order" "create_order",
           .errCount "grpc" "order" "internal_error"] := by
  refine ⟨?_, ?_, ?_, ?_, ?_, ?_, ?_, ?_, ?_, rfl, rfl, rfl⟩
  · simp [restCreateOrder, hv]
  · simp [restCreateOrder, hv]
  · simp [restCreateOrder, hv, hs]
  · simp [restCreateOrder, hv]
  · simp [jsonrpcCreateOrder, hv2]
  · simp [jsonrpcCreateOrder, hv2]
  · simp [jsonrpcCreateOrder, hv2]
  · simp [jsonrpcCreateOrder, hv2]
  · simp [grpcCreateOrder, hm]

/-- Witness for C5 (amended) at concrete inputs. -/
theorem c5_metric_events_witness :
    exReq.isValid = true
    ∧ (OrderCreate.mk "cust_1" [exItem] "1 Main St").isValid = true
    ∧ (500 : Nat) ≠ 200
    ∧ (({ success := true, payment := none,
          notification := none } : GrpcPayRespMsg).success = true)
    ∧ (restCreateOrder "ord_1" exReq
          (.response 200 { success := true, payment := none, notification := none })
          none).2.1
        = [.reqCount "rest" "order" "create_order",
           .payloadObs "rest" "order" "request",
           .latency "rest" "order" "create_order",
           .payloadObs "rest" "order" "response"]
    ∧ (restCreateOrder "ord_1" exReq
          (.response 500 { success := true, payment := none, notification := none })
          none).2.1
        = [.reqCount "rest" "order" "create_order",
           .payloadObs "rest" "order" "request"] := by
  refine ⟨by decide, by decide, by decide, rfl, ?_, ?_⟩
  · exact (c5_metric_events "ord_1" exReq (by decide) "cust_1" [exItem]
      "1 Main St" (by decide) exGrpcReq
      { success := true, payment := none, notification := none } 500 (by decide)
      "x" "y" "z" (-32000) none none
      { success := true, payment := none, notification := none } rfl).1
  · exact (c5_metric_events "ord_1" exReq (by decide) "cust_1" [exItem]
      "1 Main St" (by decide) exGrpcReq
      { success := true, payment := none, notification := none } 500 (by decide)
      "x" "y" "z" (-32000) none none
      { success := true, payment := none, notification := none } rfl).2.2.1

/-- Counterexample to C8: an internal fault with text `division by zero` in
the REST order binding produces an HTTP 500 whose client-visible `detail`
field is exactly that internal text — the fault description is not
discarded. -/
theorem c8_counterexample :
    (restCreateOrder "ord_1" exReq
        (.response 200 { success := true, payment := none, notification := none })
        (some "division by zero")).1
      = .error { status := 500, detail := "division by zero" } := rfl

/-- C8 (amended): on an internal (unanticipated) fault, every binding passes
the str(e) of the exception verbatim into the client-visible error text —
the REST binding as the HTTPException detail of the 500, the JSON-RPC
binding as the error message of the -32000 envelope, and the gRPC binding
as the context details next to the INTERNAL status; only the metrics label
(`internal_error`) and the status itself are generic. -/
theorem c8_fault_text_passthrough (oid : String) (req : OrderCreate)
    (hv : req.isValid = true) (cid : String) (items : List OrderItem)
    (sa : String) (hv2 : (OrderCreate.mk cid items sa).isValid = true)
    (greq : GrpcCreateOrderRequest) (payCall : RestPayCall)
    (jCall : JrPayCall) (gCall : GrpcPayCall) (msg : String) :
    (restCreateOrder oid req payCall (some msg)).1
        = .error { status := 500, detail := msg }
    ∧ (jsonrpcCreateOrder oid cid items sa jCall (some msg)).1
        = .error (-32000) msg
    ∧ (grpcCreateOrder oid greq gCall (some msg)).1
        = { success := false, order := none, payment := none,
            notification := none, code := .internal, details := some msg } := by
  refine ⟨?_, ?_, rfl⟩
  · simp [restCreateOrder, hv]
  · simp [jsonrpcCreateOrder, hv2]

/-- Witness for C8 (amended) at concrete inputs. -/
theorem c8_fault_text_passthrough_witness :
    exReq.isValid = true
    ∧ (OrderCreate.mk "cust_1" [exItem] "1 Main St").isValid = true
    ∧ ((restCreateOrder "ord_1" exReq (.transportError "x")
          (some "division by zero")).1
        = .error { status := 500, detail := "division by zero" }
      ∧ (jsonrpcCreateOrder "ord_1" "cust_1" [exItem] "1 Main St"
            (.transportError "x") (some "division by zero")).1
          = .error (-32000) "division by zero"
      ∧ (grpcCreateOrder "ord_1" exGrpcReq (.rpcError "x")
            (some "division by zero")).1
          = { success := false, order := none, payment := none,
              notification := none, code := .internal,
              details := some "division by zero" }) :=
  ⟨by decide, by decide,
    c8_fault_text_passthrough "ord_1" exReq (by decide) "cust_1" [exItem]
      "1 Main St" (by decide) exGrpcReq (.transportError "x")
      (.transportError "x") (.rpcError "x") "division by zero"⟩

/-- Counterexample to C9: none of the three gRPC service processes exposes
any health-check endpoint — their servers register only the business RPC
method and a prometheus metrics page. -/
theorem c9_counterexample :
    grpcOrderSurface.hasHealth = false
    ∧ grpcPaymentSurface.hasHealth = false
    ∧ grpcNotificationSurface.hasHealth = false := by decide

/-- C9 (amended): the REST and JSON-RPC bindings of every service expose
`GET /health` returning the fixed healthy body with the
`<name>-<protocol>` service string, but the gRPC bindings expose no
health-check endpoint at all. -/
theorem c9_health_endpoints :
    restOrderSurface.hasHealth = true
    ∧ restOrderHealth = { status := "healthy", service := "order-rest" }
    ∧ restPaymentSurface.hasHealth = true
    ∧ restPaymentHealth = { status := "healthy", service := "payment-rest" }
    ∧ restNotificationSurface.hasHealth = true
    ∧ restNotificationHealth
        = { status := "healthy", service := "notification-rest" }
    ∧ jsonrpcOrderSurface.hasHealth = true
    ∧ jsonrpcOrderHealth = { status := "healthy", service := "order-jsonrpc" }
    ∧ jsonrpcPaymentSurface.hasHealth = true
    ∧ jsonrpcPaymentHealth = { status := "healthy", service := "payment-jsonrpc" }
    ∧ jsonrpcNotificationSurface.hasHealth = true
    ∧ jsonrpcNotificationHealth
        = { status := "healthy", service := "notification-jsonrpc" }
    ∧ grpcOrderSurface.hasHealth = false
    ∧ grpcPaymentSurface.hasHealth = false
    ∧ grpcNotificationSurface.hasHealth = false := by decide
